import Mathlib

/-!
Shallow embedding of the core of the tinaa-playwright-msp repository:
the progress model (`app/progress_tracker.py`), the browser session
controller (`playwright_controller/controller.py`), the singleton
accessor (`app/mcp_handler.py`), and the playbook executor
(`app/enhanced_mcp_handler.py`, plus the step dispatch table of
`app/http_server.py`).

Modelling conventions:
* Python dicts with string keys are modelled as insertion-ordered
  association lists `List (String × _)`; `d[k].append(v)` on a missing
  key raises `KeyError`, modelled by an `Option`/`Except` failure.
* Arbitrary Python/JSON values (step parameters, metadata values,
  issue records coming back from in-page JavaScript) are modelled by
  the inductive type `J`.
* Fallible awaited I/O (page.goto, page.screenshot, page.evaluate,
  HTTP header fetches, step handlers) is modelled by environment
  records whose fields are `Except String _` values: `Except.error e`
  stands for the call raising an exception whose `str()` is `e`.
* Wall-clock values (`time.time()`, `datetime.now().isoformat()`) are
  supplied by the environment as explicit arguments.
* Python float arithmetic on progress percentages is modelled exactly
  over `ℚ`; no claim in scope depends on float rounding.
* The tracker's optional transport callback is an external collaborator
  (spec section 1 excludes transport framing); the tracker is modelled
  as its pure update log.
-/

namespace Tinaa

/-- Generic Python/JSON-like values used for step parameters, metadata
values and records produced by in-page JavaScript evaluation. -/
inductive J where
  | null : J
  | bool (b : Bool) : J
  | str (s : String) : J
  | num (q : ℚ) : J
  | arr (xs : List J) : J
  | obj (fields : List (String × J)) : J

/-- Python truthiness of a `J` value (used for `if total_phases:` and
`a or b` idioms in the source). -/
def pyTruthy : J → Bool
  | .null => false
  | .bool b => b
  | .str s => !s.isEmpty
  | .num q => decide (q ≠ 0)
  | .arr xs => !xs.isEmpty
  | .obj fs => !fs.isEmpty

/-- Approximation of Python `str()` on a `J` value; only the cases the
modelled code actually renders matter to the claims. -/
def pyStr : J → String
  | .null => "None"
  | .bool b => if b then "True" else "False"
  | .str s => s
  | .num q => toString q
  | .arr _ => "[...]"
  | .obj _ => "{...}"

/-- Python `str()` of an optional string (an absent dict value prints
as `None`). -/
def pyOptStr : Option String → String
  | none => "None"
  | some s => s

/-- Python `d.get(k)` on a `J` object: `None` when absent or when the
value is not an object. -/
def jLookup (o : J) (k : String) : Option J :=
  match o with
  | .obj fs => fs.lookup k
  | _ => none

/-- Python `d.get(k, default)` on a `J` object. -/
def jGetD (o : J) (k : String) (d : J) : J :=
  match jLookup o k with
  | some v => v
  | none => d

/-- Python `d[k] = v` on an object's field list: replace in place when
the key exists, else append at the end (dict insertion order). -/
def jObjSet (fs : List (String × J)) (k : String) (v : J) : List (String × J) :=
  if (fs.lookup k).isSome then fs.map (fun p => if p.1 = k then (k, v) else p)
  else fs ++ [(k, v)]

/-- Python `a or b`. -/
def pyOr (a b : J) : J := if pyTruthy a then a else b

/-- ProgressLevel enum from `progress_tracker.py`. -/
inductive ProgressLevel where
  | info : ProgressLevel
  | warning : ProgressLevel
  | error : ProgressLevel
  | success : ProgressLevel
  | debug : ProgressLevel
deriving DecidableEq

/-- The `.value` of a `ProgressLevel` member. -/
def ProgressLevel.value : ProgressLevel → String
  | .info => "info"
  | .warning => "warning"
  | .error => "error"
  | .success => "success"
  | .debug => "debug"

/-- The `ProgressUpdate` dataclass.  `timestamp` holds the
`datetime.now().isoformat()` string supplied at creation time. -/
structure ProgressUpdate where
  message : String
  level : ProgressLevel
  timestamp : String
  progress : Option ℚ
  metadata : List (String × J)

/-- `ProgressUpdate.to_dict`: always emits message/level/timestamp,
emits `progress` only when not `None`, and emits `metadata` only when
the metadata dict is truthy (non-empty). -/
def ProgressUpdate.to_dict (u : ProgressUpdate) : List (String × J) :=
  [("message", J.str u.message),
   ("level", J.str u.level.value),
   ("timestamp", J.str u.timestamp)]
  ++ (match u.progress with
      | some p => [("progress", J.num p)]
      | none => [])
  ++ (if u.metadata.isEmpty then [] else [("metadata", J.obj u.metadata)])

/-- The `ProgressTracker` state: the update log plus phase counters.
The transport callback is external to the model (see header). -/
structure ProgressTracker where
  updates : List ProgressUpdate
  start_time : ℚ
  current_phase : Option String
  phases_completed : Nat
  total_phases : Nat

/-- `ProgressTracker.__init__` at wall-clock time `t0`. -/
def ProgressTracker.new (t0 : ℚ) : ProgressTracker :=
  { updates := [], start_time := t0, current_phase := none,
    phases_completed := 0, total_phases := 0 }

/-- `ProgressTracker.update`: build a `ProgressUpdate` and append it to
the log (`now` is the creation timestamp). -/
def ProgressTracker.update (t : ProgressTracker) (now : String) (message : String)
    (level : ProgressLevel) (progress : Option ℚ) (metadata : List (String × J)) :
    ProgressTracker :=
  let u : ProgressUpdate :=
    { message := message, level := level, timestamp := now,
      progress := progress, metadata := metadata }
  { t with updates := t.updates ++ [u] }

/-- `ProgressTracker.start_phase`: set the current phase, overwrite
`total_phases` only when the argument is truthy (Python
`if total_phases:`), then emit an info update with phase metadata. -/
def ProgressTracker.start_phase (t : ProgressTracker) (now : String)
    (phase_name : String) (total_phases : Option Nat) : ProgressTracker :=
  let t1 := { t with
    current_phase := some phase_name,
    total_phases := (match total_phases with
      | some n => if n ≠ 0 then n else t.total_phases
      | none => t.total_phases) }
  let progress : Option ℚ :=
    if t1.total_phases > 0 then
      some ((t1.phases_completed : ℚ) / (t1.total_phases : ℚ) * 100)
    else none
  t1.update now ("Starting phase: " ++ phase_name) .info progress
    [("phase", J.str phase_name),
     ("phases_completed", J.num t1.phases_completed),
     ("total_phases", J.num t1.total_phases)]

/-- `ProgressTracker.complete_phase`: increment `phases_completed`
and emit a success update with recomputed progress. -/
def ProgressTracker.complete_phase (t : ProgressTracker) (now : String)
    (phase_name : String) : ProgressTracker :=
  let t1 := { t with phases_completed := t.phases_completed + 1 }
  let progress : Option ℚ :=
    if t1.total_phases > 0 then
      some ((t1.phases_completed : ℚ) / (t1.total_phases : ℚ) * 100)
    else none
  t1.update now ("Completed phase: " ++ phase_name) .success progress
    [("phase", J.str phase_name),
     ("phases_completed", J.num t1.phases_completed),
     ("total_phases", J.num t1.total_phases)]

/-- `ProgressTracker.error` wrapper (no progress argument). -/
def ProgressTracker.error (t : ProgressTracker) (now : String) (message : String)
    (metadata : List (String × J)) : ProgressTracker :=
  t.update now message .error none metadata

/-- `ProgressTracker.warning` wrapper. -/
def ProgressTracker.warning (t : ProgressTracker) (now : String) (message : String)
    (metadata : List (String × J)) : ProgressTracker :=
  t.update now message .warning none metadata

/-- `ProgressTracker.success` wrapper. -/
def ProgressTracker.success (t : ProgressTracker) (now : String) (message : String)
    (metadata : List (String × J)) : ProgressTracker :=
  t.update now message .success none metadata

/-- `ProgressTracker.info` wrapper (carries an optional progress). -/
def ProgressTracker.info (t : ProgressTracker) (now : String) (message : String)
    (progress : Option ℚ) (metadata : List (String × J)) : ProgressTracker :=
  t.update now message .info progress metadata

/-- Shape of `ProgressTracker.get_summary()`. -/
structure TrackerSummary where
  total_updates : Nat
  elapsed_time : ℚ
  phases_completed : Nat
  total_phases : Nat
  current_phase : Option String
  updates : List (List (String × J))

/-- `ProgressTracker.get_summary` at wall-clock time `now`. -/
def ProgressTracker.get_summary (t : ProgressTracker) (now : ℚ) : TrackerSummary :=
  { total_updates := t.updates.length,
    elapsed_time := now - t.start_time,
    phases_completed := t.phases_completed,
    total_phases := t.total_phases,
    current_phase := t.current_phase,
    updates := t.updates.map ProgressUpdate.to_dict }

/-- The `ProgressContext` async context manager state. -/
structure ProgressContext where
  tracker : ProgressTracker
  operation_name : String
  total_steps : Option Nat
  current_step : Nat

/-- `ProgressContext.__init__`. -/
def ProgressContext.new (t : ProgressTracker) (operation_name : String)
    (total_steps : Option Nat) : ProgressContext :=
  { tracker := t, operation_name := operation_name,
    total_steps := total_steps, current_step := 0 }

/-- `ProgressContext.__aenter__`: emit the starting info update. -/
def ProgressContext.aenter (ctx : ProgressContext) (now : String) : ProgressContext :=
  { ctx with tracker :=
      ctx.tracker.info now ("Starting " ++ ctx.operation_name) none [] }

/-- `ProgressContext.__aexit__`: `exc` is the `str()` of the exception
raised in the scope (`none` on normal exit).  The second component of
the result is the exception that keeps propagating: `__aexit__`
returns a falsy value, so it never suppresses. -/
def ProgressContext.aexit (ctx : ProgressContext) (now : String)
    (exc : Option String) : ProgressContext × Option String :=
  match exc with
  | some e =>
    ({ ctx with tracker := (ctx.tracker.error now
        ("Error in " ++ ctx.operation_name ++ ": " ++ e)
        [("exception", J.str e)]) }, some e)
  | none =>
    ({ ctx with tracker := (ctx.tracker.success now
        ("Completed " ++ ctx.operation_name) []) }, none)

/-- `ProgressContext.step`: advance `current_step`, compute progress
only when `total_steps` is truthy, and emit an info update carrying
step metadata. -/
def ProgressContext.step (ctx : ProgressContext) (now : String) (message : String)
    (increment : Nat) : ProgressContext :=
  let cur := ctx.current_step + increment
  let progress : Option ℚ :=
    match ctx.total_steps with
    | some n => if n ≠ 0 then some ((cur : ℚ) / (n : ℚ) * 100) else none
    | none => none
  let md : List (String × J) :=
    [("step", J.num cur),
     ("total_steps", (match ctx.total_steps with
       | some n => J.num n
       | none => J.null))]
  { ctx with
    current_step := cur,
    tracker := ctx.tracker.info now message progress md }

/-! Session controller (`playwright_controller/controller.py`). -/

/-- One entry of the controller's `screenshots` list.  `data` is the
base64 payload (the base64 encoding itself is kept abstract: the
environment supplies the already-encoded string). -/
structure ScreenshotEntry where
  name : String
  type : String
  selector : Option String
  data : String

/-- One finding record `{type, description, details}` appended to
`findings[severity]`. -/
structure Finding where
  type : String
  description : String
  details : J

/-- The `findings` dict, as an insertion-ordered association list from
severity key to its list of findings. -/
abbrev Findings := List (String × List Finding)

/-- Python `self.findings[k].append(v)`: `none` models the `KeyError`
raised when `k` is not a key of the dict. -/
def dictAppend (d : Findings) (k : String) (v : Finding) : Option Findings :=
  match d with
  | [] => none
  | (k1, vs) :: rest =>
    if k1 = k then some ((k1, vs ++ [v]) :: rest)
    else (dictAppend rest k v).map (fun r => (k1, vs) :: r)

/-- The key list of a findings dict (Python `list(d.keys())`). -/
def dictKeys (d : Findings) : List String := d.map Prod.fst

/-- The `PlaywrightController` state.  The four resource handles are
modelled as presence flags. -/
structure PlaywrightController where
  playwright : Bool
  browser : Bool
  context : Bool
  page : Bool
  is_initialized : Bool
  screenshots : List ScreenshotEntry
  findings : Findings

/-- `PlaywrightController.__init__`: no handles, uninitialized, empty
screenshot list, findings dict with exactly the four severity keys. -/
def PlaywrightController.new : PlaywrightController :=
  { playwright := false, browser := false, context := false, page := false,
    is_initialized := false, screenshots := [],
    findings := [("high", []), ("medium", []), ("low", []), ("info", [])] }

/-- `PlaywrightController.initialize`: `launch_ok` tells whether the
browser/context/page creation succeeded.  On failure the method
catches the exception and returns `False`, leaving
`is_initialized = False`; on success all handles are live.  The
screenshot list and findings dict are not touched either way. -/
def PlaywrightController.initialize (c : PlaywrightController) (launch_ok : Bool) :
    Bool × PlaywrightController :=
  if launch_ok then
    (true, { c with playwright := true, browser := true, context := true,
                    page := true, is_initialized := true })
  else
    (false, c)

/-- `PlaywrightController.close`: when initialized, release all
handles and reset `is_initialized`; `screenshots` and `findings` are
not cleared. -/
def PlaywrightController.close (c : PlaywrightController) : PlaywrightController :=
  if c.is_initialized then
    { c with page := false, context := false, browser := false,
             playwright := false, is_initialized := false }
  else c

/-- Environment of one `take_screenshot` call: the outcome of
`page.query_selector(selector)` (raised / no element / element found)
and the outcome of the screenshot capture itself
(`element.screenshot()` or `page.screenshot(...)`), which yields the
base64 data on success. -/
structure ScreenshotEnv where
  query_selector : Except String Bool
  screenshot_bytes : Except String String

/-- `PlaywrightController.take_screenshot`: returns the base64 data
and appends one entry to `screenshots` only on success; every failure
path is caught and returns `None` with the state unchanged. -/
def PlaywrightController.take_screenshot (c : PlaywrightController)
    (env : ScreenshotEnv) (name : String) (selector : Option String)
    (full_page : Bool) : Option String × PlaywrightController :=
  if !c.is_initialized then (none, c)
  else
    match selector with
    | some sel =>
      match env.query_selector with
      | .error _ => (none, c)
      | .ok false => (none, c)
      | .ok true =>
        match env.screenshot_bytes with
        | .error _ => (none, c)
        | .ok data =>
          (some data, { c with screenshots := c.screenshots ++
            [{ name := name, type := "element", selector := some sel, data := data }] })
    | none =>
      match env.screenshot_bytes with
      | .error _ => (none, c)
      | .ok data =>
        (some data, { c with screenshots := c.screenshots ++
          [{ name := name,
             type := if full_page then "full_page" else "viewport",
             selector := none, data := data }] })

/-- A navigation response as seen by `navigate` (`response.ok`). -/
structure NavResponse where
  ok : Bool

/-- Environment of one `navigate` call: the outcome of
`page.goto(url, wait_until=networkidle)` (raised / `None` / response)
and the screenshot environment of the `page_load` capture. -/
structure NavigateEnv where
  goto : Except String (Option NavResponse)
  shot : ScreenshotEnv

/-- `PlaywrightController.navigate`: `False` when uninitialized or
when `goto` raises; otherwise it always attempts the `page_load`
screenshot (whose own failure is swallowed by `take_screenshot`) and
returns `response is not None and response.ok`. -/
def PlaywrightController.navigate (c : PlaywrightController) (env : NavigateEnv)
    (url : String) : Bool × PlaywrightController :=
  if !c.is_initialized then (false, c)
  else
    match env.goto with
    | .error _ => (false, c)
    | .ok resp =>
      let c1 := (c.take_screenshot env.shot "page_load" none false).2
      ((match resp with
        | some r => r.ok
        | none => false), c1)

/-- Environment of one `check_accessibility` call: the accessibility
snapshot and the two in-page scans of `_run_accessibility_checks`
(each may raise). -/
structure AccessibilityEnv where
  snapshot : Except String J
  no_alt_images : Except String (List J)
  unlabeled_inputs : Except String (List J)

/-- An issue record built by `_run_accessibility_checks`. -/
structure AccessibilityIssue where
  type : String
  severity : String
  description : String
  element : J

/-- Rendering of an issue record back to the dict stored as the
finding's `details`. -/
def AccessibilityIssue.toJ (i : AccessibilityIssue) : J :=
  J.obj [("type", J.str i.type), ("severity", J.str i.severity),
         ("description", J.str i.description), ("element", i.element)]

/-- `_run_accessibility_checks`: images lacking alt text produce
`missing_alt_text` issues, unlabeled inputs produce `missing_label`
issues; both scans use severity `"medium"`. -/
def PlaywrightController.run_accessibility_checks (env : AccessibilityEnv) :
    Except String (List AccessibilityIssue) :=
  match env.no_alt_images with
  | .error e => .error e
  | .ok imgs =>
    match env.unlabeled_inputs with
    | .error e => .error e
    | .ok inputs =>
      .ok ((imgs.map (fun img =>
              { type := "missing_alt_text", severity := "medium",
                description := "Image missing alt text", element := img }))
        ++ (inputs.map (fun inp =>
              { type := "missing_label", severity := "medium",
                description := "Input field missing label: " ++
                  pyStr (pyOr (jGetD inp "name" J.null) (jGetD inp "id" J.null)),
                element := inp })))

/-- The `for issue in issues:` loop of `check_accessibility`: appends
each issue to `findings[issue.get("severity", "medium")]`; a
`KeyError` aborts the loop but keeps the appends already made
(in-place mutation). -/
def PlaywrightController.addAccessibilityFindings :
    PlaywrightController → List AccessibilityIssue →
    PlaywrightController × Option String
  | c, [] => (c, none)
  | c, issue :: rest =>
    match dictAppend c.findings issue.severity
        { type := "accessibility", description := issue.description,
          details := issue.toJ } with
    | none => (c, some ("KeyError: " ++ issue.severity))
    | some f =>
      PlaywrightController.addAccessibilityFindings { c with findings := f } rest

/-- `PlaywrightController.check_accessibility`: error shape when
uninitialized or when any awaited call raises; on success returns the
snapshot plus the issue list, after accumulating each issue into
`findings`. -/
def PlaywrightController.check_accessibility (c : PlaywrightController)
    (env : AccessibilityEnv) :
    Except String (J × List AccessibilityIssue) × PlaywrightController :=
  if !c.is_initialized then
    (.error "Playwright controller not initialized", c)
  else
    match env.snapshot with
    | .error e => (.error e, c)
    | .ok snap =>
      match PlaywrightController.run_accessibility_checks env with
      | .error e => (.error e, c)
      | .ok issues =>
        match PlaywrightController.addAccessibilityFindings c issues with
        | (c1, none) => (.ok (snap, issues), c1)
        | (c1, some e) => (.error e, c1)

/-- One breakpoint dict passed to `check_responsive_design`; absent
keys fall back to the defaults `"Custom"`, 1280, 720. -/
structure Breakpoint where
  name : Option String
  width : Option Nat
  height : Option Nat

/-- Environment of one iteration of the breakpoint loop: the viewport
resize, the reload of the current URL, the screenshot capture, and
the issue records produced by `_check_layout_issues` (each a dict).
`check_responsive_design` has no `try`, so a raise in any of these
propagates to the caller with the mutations made so far kept. -/
structure BreakpointEnv where
  set_viewport : Except String Unit
  reload : Except String Unit
  shot : ScreenshotEnv
  layout_issues : Except String (List J)

/-- Result of `check_responsive_design`: the per-breakpoint records
and the aggregated issue list (both as dicts). -/
structure ResponsiveResults where
  breakpoints : List J
  issues : List J

/-- The `for issue in layout_issues:` tail of one breakpoint
iteration: tag the issue with its breakpoint name, collect it, and
append a `responsive` finding to `findings["medium"]` (a `KeyError`
propagates, keeping earlier mutations). -/
def PlaywrightController.addResponsiveIssues :
    PlaywrightController → String → List J → List J →
    (PlaywrightController × List J) × Option String
  | c, _, acc, [] => ((c, acc), none)
  | c, bpName, acc, issue :: rest =>
    let tagged :=
      match issue with
      | .obj fs => J.obj (jObjSet fs "breakpoint" (J.str bpName))
      | other => other
    let acc1 := acc ++ [tagged]
    match dictAppend c.findings "medium"
        { type := "responsive",
          description := "Responsive issue at " ++ bpName ++ " breakpoint: " ++
            pyStr (jGetD tagged "description" (J.str "Layout issue")),
          details := tagged } with
    | none => ((c, acc1), some "KeyError: medium")
    | some f =>
      PlaywrightController.addResponsiveIssues { c with findings := f } bpName acc1 rest

/-- The breakpoint loop of `check_responsive_design`.  Each iteration
resizes, reloads the captured current URL, screenshots
(`breakpoint_{name}`), scans layout issues, records the breakpoint
result and accumulates the issues into `findings["medium"]`. -/
def PlaywrightController.responsiveLoop :
    PlaywrightController → List (Breakpoint × BreakpointEnv) →
    List J → List J → Except String (List J × List J) × PlaywrightController
  | c, [], accB, accI => (.ok (accB, accI), c)
  | c, (bp, env) :: rest, accB, accI =>
    let bpName := bp.name.getD "Custom"
    let width := bp.width.getD 1280
    let height := bp.height.getD 720
    match env.set_viewport with
    | .error e => (.error e, c)
    | .ok _ =>
      match env.reload with
      | .error e => (.error e, c)
      | .ok _ =>
        let (shotData, c1) := c.take_screenshot env.shot ("breakpoint_" ++ bpName) none false
        match env.layout_issues with
        | .error e => (.error e, c1)
        | .ok issues =>
          match PlaywrightController.addResponsiveIssues c1 bpName [] issues with
          | ((c2, tagged), none) =>
            let bpResult := J.obj
              [("name", J.str bpName), ("width", J.num width),
               ("height", J.num height),
               ("screenshot", (match shotData with
                 | some d => J.str d
                 | none => J.null)),
               ("issues", J.arr tagged)]
            PlaywrightController.responsiveLoop c2 rest (accB ++ [bpResult]) (accI ++ tagged)
          | ((c2, _), some e) => (.error e, c2)

/-- `PlaywrightController.check_responsive_design`.  The environment
of each loop iteration is paired with its breakpoint.  There is no
enclosing `try`, so raised exceptions propagate (as `Except.error`)
while the controller keeps the mutations already performed. -/
def PlaywrightController.check_responsive_design (c : PlaywrightController)
    (bps : List (Breakpoint × BreakpointEnv)) :
    Except String ResponsiveResults × PlaywrightController :=
  if !c.is_initialized then
    (.error "Playwright controller not initialized", c)
  else
    match PlaywrightController.responsiveLoop c bps [] [] with
    | (.ok (accB, accI), c1) => (.ok { breakpoints := accB, issues := accI }, c1)
    | (.error e, c1) => (.error e, c1)

/-- One form record from the in-page form scan of
`run_security_checks`. -/
structure FormInfo where
  action : String
  method : String
  hasPassword : Bool

/-- Environment of one `run_security_checks` call: the current page
URL, the header-fetching `page.goto` (raised / `None` response /
lower-cased header map), and the form scan. -/
structure SecurityEnv where
  current_url : String
  goto : Except String (Option (List (String × String)))
  forms : Except String (List FormInfo)

/-- Result shape of `run_security_checks`. -/
structure SecurityResults where
  https : Bool
  csp : Option Bool
  x_frame_options : Option Bool
  issues : List J

/-- The password-over-HTTP form loop of `run_security_checks`. -/
def PlaywrightController.addFormFindings :
    PlaywrightController → List J → List FormInfo →
    (PlaywrightController × List J) × Option String
  | c, acc, [] => ((c, acc), none)
  | c, acc, form :: rest =>
    if form.hasPassword && form.action.startsWith "http:" then
      match dictAppend c.findings "high"
          { type := "security",
            description := "Password form submitting over HTTP",
            details := J.obj [("action", J.str form.action),
                              ("method", J.str form.method),
                              ("hasPassword", J.bool form.hasPassword)] } with
      | none => ((c, acc), some "KeyError: high")
      | some f =>
        PlaywrightController.addFormFindings { c with findings := f }
          (acc ++ [J.obj [("severity", J.str "high"),
            ("description", J.str "Password form submitting over HTTP"),
            ("recommendation", J.str "Use HTTPS for all forms with sensitive data")]])
          rest
    else
      PlaywrightController.addFormFindings c acc rest

/-- The HTTPS block of `run_security_checks`: when the current URL is
not `https://`, append a high finding and the matching issue record
(a `KeyError` on the append is the raised-exception case). -/
def PlaywrightController.secHttpsStage (c : PlaywrightController)
    (current_url : String) : (PlaywrightController × List J) × Option String :=
  if !current_url.startsWith "https://" then
    match dictAppend c.findings "high"
        { type := "security", description := "Site is not using HTTPS",
          details := J.obj [("url", J.str current_url)] } with
    | none => ((c, []), some "KeyError: high")
    | some f =>
      (({ c with findings := f },
        [J.obj [("severity", J.str "high"),
          ("description", J.str "Site is not using HTTPS"),
          ("recommendation", J.str "Implement HTTPS for all pages")]]), none)
  else ((c, []), none)

/-- The Content-Security-Policy block of `run_security_checks`. -/
def PlaywrightController.secCspStage (c : PlaywrightController)
    (issues : List J) (has_csp : Bool) (headerKeys : J) :
    (PlaywrightController × List J) × Option String :=
  if !has_csp then
    match dictAppend c.findings "medium"
        { type := "security",
          description := "No Content Security Policy header",
          details := J.obj [("headers", headerKeys)] } with
    | none => ((c, issues), some "KeyError: medium")
    | some f =>
      (({ c with findings := f },
        issues ++ [J.obj [("severity", J.str "medium"),
          ("description", J.str "No Content Security Policy header"),
          ("recommendation",
           J.str "Implement a Content Security Policy to prevent XSS attacks")]]), none)
  else ((c, issues), none)

/-- The X-Frame-Options block of `run_security_checks`. -/
def PlaywrightController.secXfoStage (c : PlaywrightController)
    (issues : List J) (has_xfo : Bool) (headerKeys : J) :
    (PlaywrightController × List J) × Option String :=
  if !has_xfo then
    match dictAppend c.findings "low"
        { type := "security",
          description := "No X-Frame-Options header",
          details := J.obj [("headers", headerKeys)] } with
    | none => ((c, issues), some "KeyError: low")
    | some f =>
      (({ c with findings := f },
        issues ++ [J.obj [("severity", J.str "low"),
          ("description", J.str "No X-Frame-Options header"),
          ("recommendation",
           J.str "Add X-Frame-Options header to prevent clickjacking attacks")]]), none)
  else ((c, issues), none)

/-- `PlaywrightController.run_security_checks`: HTTPS scheme check
(high finding when missing), header re-fetch for CSP (medium) and
X-Frame-Options (low), then the form scan (high findings).  Every
failure is caught and returned as an error shape, with the findings
accumulated so far kept. -/
def PlaywrightController.run_security_checks (c : PlaywrightController)
    (env : SecurityEnv) : Except String SecurityResults × PlaywrightController :=
  if !c.is_initialized then
    (.error "Playwright controller not initialized", c)
  else
    let is_https := env.current_url.startsWith "https://"
    match PlaywrightController.secHttpsStage c env.current_url with
    | ((c1, _), some e) => (.error e, c1)
    | ((c1, issues1), none) =>
      match env.goto with
      | .error e => (.error e, c1)
      | .ok none =>
        -- `response.headers` on a `None` response raises AttributeError
        (.error "AttributeError: NoneType object has no attribute headers", c1)
      | .ok (some headers) =>
        let has_csp := (headers.lookup "content-security-policy").isSome
        let headerKeys := J.arr (headers.map (fun h => J.str h.1))
        match PlaywrightController.secCspStage c1 issues1 has_csp headerKeys with
        | ((c2, _), some e) => (.error e, c2)
        | ((c2, issues2), none) =>
          let has_xfo := (headers.lookup "x-frame-options").isSome
          match PlaywrightController.secXfoStage c2 issues2 has_xfo headerKeys with
          | ((c3, _), some e) => (.error e, c3)
          | ((c3, issues3), none) =>
            match env.forms with
            | .error e => (.error e, c3)
            | .ok forms =>
              match PlaywrightController.addFormFindings c3 issues3 forms with
              | ((c4, _), some e) => (.error e, c4)
              | ((c4, issues4), none) =>
                (.ok { https := is_https, csp := some has_csp,
                       x_frame_options := some has_xfo, issues := issues4 }, c4)

/-! Singleton accessor (`app/mcp_handler.py::get_controller`). -/

/-- `get_controller`: given the module-global `controller` slot and
whether a fresh browser launch would succeed, return the controller
handed to the caller (or the raised `RuntimeError`) together with the
new value of the global slot.  Note that the global is reassigned to
the fresh instance before the failure check, so a failed
initialization still replaces the global. -/
def get_controller (launch_ok : Bool) (g : Option PlaywrightController) :
    Except String PlaywrightController × Option PlaywrightController :=
  let needFresh :=
    match g with
    | none => true
    | some c => !c.is_initialized
  if needFresh then
    let (success, c1) := PlaywrightController.initialize PlaywrightController.new launch_ok
    if success then (.ok c1, some c1)
    else (.error "Failed to initialize Playwright controller", some c1)
  else
    match g with
    | some c => (.ok c, some c)
    | none => (.error "unreachable", none)

/-! Playbook executor (`app/enhanced_mcp_handler.py::PlaybookExecutor`)
and the HTTP-server step dispatch (`app/http_server.py::execute_step`). -/

/-- The `parameters` dict of a step. -/
abbrev Params := List (String × J)

/-- Python `params.get(k)`. -/
def paramsGet (p : Params) (k : String) : Option J := p.lookup k

/-- Python `params.get(k, default)`. -/
def paramsGetD (p : Params) (k : String) (d : J) : J :=
  match p.lookup k with
  | some v => v
  | none => d

/-- One playbook step dict: `step.get("id", ...)`,
`step.get("action")` and `step.get("parameters", ...)` read optional
keys, modelled as `Option` fields. -/
structure StepDict where
  id : Option String
  action : Option String
  parameters : Option Params

/-- The playbook dict handed to `PlaybookExecutor.execute`:
`id`/`name`/`steps`/`stop_on_error` are read with `.get`, so every
field may be absent. -/
structure PlaybookDict where
  id : Option String
  name : Option String
  steps : List StepDict
  stop_on_error : Option Bool

/-- A handler invocation reachable from `PlaybookExecutor`'s
`action_map` (seven entries, each a lambda closing over the step
parameters). -/
inductive EnhancedCall where
  | navigate_to_url (url : Option J) : EnhancedCall
  | take_page_screenshot (full_page : J) : EnhancedCall
  | fill_form_fields (fields : J) : EnhancedCall
  | run_exploratory_test : EnhancedCall
  | run_accessibility_test : EnhancedCall
  | run_responsive_test : EnhancedCall
  | run_security_test : EnhancedCall

/-- A handler invocation reachable from `http_server.execute_step`'s
`action_map` (nine entries). -/
inductive HttpCall where
  | navigate_to_url (url : Option J) : HttpCall
  | take_page_screenshot (full_page : J) : HttpCall
  | fill_form_fields (fields : J) : HttpCall
  | run_exploratory_test (url : J) (focus_area : J) : HttpCall
  | run_accessibility_test : HttpCall
  | run_responsive_test : HttpCall
  | run_security_test : HttpCall
  | detect_form_fields : HttpCall
  | generate_test_report : HttpCall

/-- The dispatch lookup of `PlaybookExecutor._execute_step`: the
literal `action_map` dict has exactly the seven keys below; `none`
models `action not in action_map`.  A non-string (or absent) action
value is never a key of the dict. -/
def PlaybookExecutor.actionLookup (action : Option String) (params : Params) :
    Option EnhancedCall :=
  match action with
  | some "navigate" => some (.navigate_to_url (paramsGet params "url"))
  | some "screenshot" => some (.take_page_screenshot (paramsGetD params "full_page" (J.bool true)))
  | some "fill_form" => some (.fill_form_fields (paramsGetD params "fields" (J.obj [])))
  | some "test_exploratory" => some .run_exploratory_test
  | some "test_accessibility" => some .run_accessibility_test
  | some "test_responsive" => some .run_responsive_test
  | some "test_security" => some .run_security_test
  | _ => none

/-- The dispatch lookup of `http_server.execute_step`: the literal
`action_map` dict has exactly the nine keys below. -/
def httpActionLookup (action : String) (params : Params) : Option HttpCall :=
  match action with
  | "navigate" => some (.navigate_to_url (paramsGet params "url"))
  | "screenshot" => some (.take_page_screenshot (paramsGetD params "full_page" (J.bool true)))
  | "fill_form" => some (.fill_form_fields (paramsGetD params "fields" (J.obj [])))
  | "test_exploratory" => some (.run_exploratory_test
      (paramsGetD params "url" (J.str "https://example.com"))
      (paramsGetD params "focus_area" (J.str "general")))
  | "test_accessibility" => some .run_accessibility_test
  | "test_responsive" => some .run_responsive_test
  | "test_security" => some .run_security_test
  | "detect_forms" => some .detect_form_fields
  | "generate_report" => some .generate_test_report
  | _ => none

/-- The nine action names of the spec's playbook step vocabulary. -/
def specStepVocabulary : List String :=
  ["navigate", "screenshot", "fill_form", "test_exploratory",
   "test_accessibility", "test_responsive", "test_security",
   "detect_forms", "generate_report"]

/-- The seven keys of `PlaybookExecutor._execute_step`'s
`action_map`. -/
def PlaybookExecutor.actions : List String :=
  ["navigate", "screenshot", "fill_form", "test_exploratory",
   "test_accessibility", "test_responsive", "test_security"]

/-- `PlaybookExecutor._execute_step`: dispatch, or raise
`ValueError("Unknown action: ...")` when the lookup fails.  `run`
gives the outcome of the invoked handler (`Except.error` models the
handler raising). -/
def PlaybookExecutor.execute_step (run : EnhancedCall → Except String J)
    (action : Option String) (params : Params) : Except String J :=
  match PlaybookExecutor.actionLookup action params with
  | some call => run call
  | none => .error ("Unknown action: " ++ pyOptStr action)

/-- `http_server.execute_step`: same shape over the nine-key table. -/
def httpExecuteStep (run : HttpCall → Except String J)
    (action : String) (params : Params) : Except String J :=
  match httpActionLookup action params with
  | some call => run call
  | none => .error ("Unknown action: " ++ action)

/-- Environment of one `PlaybookExecutor.execute` run: per-step
handler outcomes (indexed by step position, since handlers act on the
shared browser session), the timestamp used for progress updates, and
the `time.time()` values at tracker creation and at summary time. -/
structure ExecEnv where
  run : Nat → EnhancedCall → Except String J
  now : String
  t0 : ℚ
  t1 : ℚ

/-- One entry of the executor's `results` list.  `outcome` carries the
`"result"` value on success and the `"error"` string otherwise, next
to the explicit `status` field the code also stores. -/
structure StepResultR where
  step_id : String
  action : Option String
  status : String
  outcome : Except String J

/-- The aggregate dict returned by `PlaybookExecutor.execute`. -/
structure PlaybookResultR where
  playbook_id : Option String
  name : String
  status : String
  results : List StepResultR
  summary : TrackerSummary

/-- The step loop of `PlaybookExecutor.execute`: per step, an info
update, dispatch/execution, the success or error branch, and the
`stop_on_error` break decision. -/
def PlaybookExecutor.execLoop (env : ExecEnv) (stop : Bool) (total : Nat) :
    Nat → List StepDict → ProgressTracker → List StepResultR →
    ProgressTracker × List StepResultR
  | _, [], t, acc => (t, acc)
  | i, step :: rest, t, acc =>
    let step_id := step.id.getD ("step-" ++ toString i)
    let action := step.action
    let params := step.parameters.getD []
    let t1 := t.info env.now
      ("Executing step " ++ toString (i + 1) ++ "/" ++ toString total ++ ": " ++
        pyOptStr action)
      (some ((i : ℚ) / (total : ℚ) * 100)) []
    match PlaybookExecutor.execute_step (env.run i) action params with
    | .ok r =>
      let acc1 := acc ++ [{ step_id := step_id, action := action,
                            status := "success", outcome := .ok r }]
      let t2 := t1.success env.now
        ("Step " ++ toString (i + 1) ++ " completed successfully") []
      PlaybookExecutor.execLoop env stop total (i + 1) rest t2 acc1
    | .error e =>
      let t2 := t1.error env.now
        ("Step " ++ toString (i + 1) ++ " failed: " ++ e) []
      let acc1 := acc ++ [{ step_id := step_id, action := action,
                            status := "error", outcome := .error e }]
      if stop then (t2, acc1)
      else PlaybookExecutor.execLoop env stop total (i + 1) rest t2 acc1

/-- `PlaybookExecutor.execute`: fresh tracker, phase start sized to
the step count, the step loop, phase completion, and the aggregate
result carrying the tracker's summary.  The final tracker state is
returned alongside for specification purposes. -/
def PlaybookExecutor.execute (env : ExecEnv) (pb : PlaybookDict) :
    ProgressTracker × PlaybookResultR :=
  let t := ProgressTracker.new env.t0
  let playbook_name := pb.name.getD "Unnamed Playbook"
  let steps := pb.steps
  let t1 := t.start_phase env.now ("Executing: " ++ playbook_name) (some steps.length)
  let (t2, results) :=
    PlaybookExecutor.execLoop env (pb.stop_on_error.getD true) steps.length 0 steps t1 []
  let t3 := t2.complete_phase env.now playbook_name
  (t3, { playbook_id := pb.id, name := playbook_name, status := "completed",
         results := results, summary := t3.get_summary env.t1 })

/-- The result entry a step produces, shared by both loop policies. -/
def PlaybookExecutor.stepEntry (env : ExecEnv) (i : Nat) (step : StepDict) :
    StepResultR :=
  match PlaybookExecutor.execute_step (env.run i) step.action (step.parameters.getD []) with
  | .ok r => { step_id := step.id.getD ("step-" ++ toString i),
               action := step.action, status := "success", outcome := .ok r }
  | .error e => { step_id := step.id.getD ("step-" ++ toString i),
                  action := step.action, status := "error", outcome := .error e }

/-- Modelled from the spec: with `stop_on_error` true the result list
is the outcomes of the steps up to and including the first failing
one — subsequent steps are not attempted and do not appear. -/
def specResultsStop (env : ExecEnv) : Nat → List StepDict → List StepResultR
  | _, [] => []
  | i, step :: rest =>
    let r := PlaybookExecutor.stepEntry env i step
    if r.status = "error" then [r]
    else r :: specResultsStop env (i + 1) rest

/-- Modelled from the spec: with `stop_on_error` false every step is
attempted and its outcome appended in step order. -/
def specResultsAll (env : ExecEnv) : Nat → List StepDict → List StepResultR
  | _, [] => []
  | i, step :: rest =>
    PlaybookExecutor.stepEntry env i step :: specResultsAll env (i + 1) rest

/-! Sequences of check-suite calls against one controller, for the
findings-key invariant. -/

/-- One check-suite call together with its page environment. -/
inductive ControllerOp where
  | accessibility (env : AccessibilityEnv) : ControllerOp
  | responsive (bps : List (Breakpoint × BreakpointEnv)) : ControllerOp
  | security (env : SecurityEnv) : ControllerOp

/-- Run one check-suite call, keeping the mutated controller. -/
def applyOp (c : PlaywrightController) (op : ControllerOp) : PlaywrightController :=
  match op with
  | .accessibility env => (c.check_accessibility env).2
  | .responsive bps => (c.check_responsive_design bps).2
  | .security env => (c.run_security_checks env).2

/-! Concrete sample inputs used by counterexamples and witnesses. -/

/-- A freshly constructed controller after a successful
`initialize()`: no screenshots, empty findings lists. -/
def sampleController : PlaywrightController :=
  ( PlaywrightController.initialize PlaywrightController.new true).2

/-- Navigation environment where `page.goto` yields an ok response
but the `page_load` screenshot capture raises. -/
def navOkShotFails : NavigateEnv :=
  { goto := .ok (some { ok := true }),
    shot := { query_selector := .ok true,
              screenshot_bytes := .error "screenshot failed" } }

/-- Navigation environment where `page.goto` yields an ok response
and the screenshot capture succeeds. -/
def navOkShotOk : NavigateEnv :=
  { goto := .ok (some { ok := true }),
    shot := { query_selector := .ok true, screenshot_bytes := .ok "DATA" } }

/-- Navigation environment where `page.goto` completes without
raising but returns no response, and the screenshot capture raises. -/
def navNoneShotFails : NavigateEnv :=
  { goto := .ok none,
    shot := { query_selector := .ok true,
              screenshot_bytes := .error "screenshot failed" } }

/-- Navigation environment where `page.goto` completes without
raising with a non-ok response, and the screenshot capture
succeeds. -/
def navNotOkShotOk : NavigateEnv :=
  { goto := .ok (some { ok := false }),
    shot := { query_selector := .ok true, screenshot_bytes := .ok "DATA" } }

/-- Executor environment whose handlers all succeed. -/
def sampleExecEnv : ExecEnv :=
  { run := fun _ _ => Except.ok J.null,
    now := "2026-01-01T00:00:00", t0 := 0, t1 := 1 }

/-- Executor environment whose handlers all raise. -/
def failingExecEnv : ExecEnv :=
  { run := fun _ _ => Except.error "handler failed",
    now := "2026-01-01T00:00:00", t0 := 0, t1 := 1 }

/-- A two-step playbook (navigate, then screenshot) with no
`stop_on_error` key (so the default applies). -/
def twoStepPlaybook : PlaybookDict :=
  { id := some "pb-1", name := some "Sample",
    steps :=
      [{ id := some "s1", action := some "navigate",
         parameters := some [("url", J.str "https://example.com")] },
       { id := some "s2", action := some "screenshot", parameters := none }],
    stop_on_error := none }

/-! Theorems. -/

/-- C8: inside a `ProgressContext` scope, an exception makes
`__aexit__` emit exactly one error-level update whose message is
`"Error in {operation_name}: {exception}"` and whose metadata carries
the exception text, and the exception keeps propagating; a normal
exit emits exactly one success update `"Completed {operation_name}"`
and propagates nothing. -/
theorem progressContext_aexit_reports_and_reraises
    (t : ProgressTracker) (op : String) (ts : Option Nat) (cs : Nat)
    (now : String) (e : String) :
    ((ProgressContext.mk t op ts cs).aexit now (some e)).1.tracker.updates =
        t.updates ++ [{ message := "Error in " ++ op ++ ": " ++ e,
                        level := .error, timestamp := now, progress := none,
                        metadata := [("exception", J.str e)] }] ∧
    ((ProgressContext.mk t op ts cs).aexit now (some e)).2 = some e ∧
    ((ProgressContext.mk t op ts cs).aexit now none).1.tracker.updates =
        t.updates ++ [{ message := "Completed " ++ op, level := .success,
                        timestamp := now, progress := none, metadata := [] }] ∧
    ((ProgressContext.mk t op ts cs).aexit now none).2 = none :=
  ⟨rfl, rfl, rfl, rfl⟩

/-- C9: `ProgressUpdate.to_dict` always contains the message, level
and timestamp keys, contains `progress` exactly when `progress` is
not `None` (and then verbatim), and contains `metadata` exactly when
the metadata map is non-empty (the dataclass default for an
unsupplied metadata is the empty map), again verbatim. -/
theorem progressUpdate_to_dict_key_shape (u : ProgressUpdate) :
    u.to_dict.lookup "message" = some (J.str u.message) ∧
    u.to_dict.lookup "level" = some (J.str u.level.value) ∧
    u.to_dict.lookup "timestamp" = some (J.str u.timestamp) ∧
    u.to_dict.lookup "progress" = u.progress.map J.num ∧
    u.to_dict.lookup "metadata" =
      (if u.metadata.isEmpty then none else some (J.obj u.metadata)) := by
  obtain ⟨m, l, ts, pr, md⟩ := u
  cases pr <;> cases md <;>
    simp [ProgressUpdate.to_dict, List.lookup]

/-- C7: after `close()` on an initialized controller, the next
`get_controller()` call (the singleton accessor through which
re-initialization happens) replaces the closed instance with a fresh
one whose screenshot list is empty and whose findings lists are all
empty, whatever had accumulated before the close. -/
theorem close_then_get_controller_is_fresh (c : PlaywrightController)
    (h : c.is_initialized = true) :
    ∃ c1, get_controller true (some c.close) = (Except.ok c1, some c1) ∧
      c1.is_initialized = true ∧
      c1.screenshots = [] ∧
      c1.findings = [("high", []), ("medium", []), ("low", []), ("info", [])] := by
  refine ⟨( PlaywrightController.initialize PlaywrightController.new true).2, ?_, rfl, rfl, rfl⟩
  simp [get_controller, PlaywrightController.close, h,
        PlaywrightController.initialize]

/-- C7 witness: a concrete initialized controller run through
`close` and `get_controller`. -/
theorem close_then_get_controller_is_fresh_witness :
    ∃ c1, get_controller true (some sampleController.close) = (Except.ok c1, some c1) ∧
      c1.is_initialized = true ∧
      c1.screenshots = [] ∧
      c1.findings = [("high", []), ("medium", []), ("low", []), ("info", [])] :=
  close_then_get_controller_is_fresh sampleController rfl

/-- C6 counterexample: on an initialized controller, `page.goto`
succeeds with an ok response but the `page_load` screenshot capture
itself raises; `take_screenshot` swallows that failure without
appending, yet `navigate` still returns `True`.  So a `navigate` call
that returns true need not add any entry to `screenshots`,
contradicting the claim as stated. -/
theorem navigate_true_without_screenshot_entry :
    sampleController.is_initialized = true ∧
    (sampleController.navigate navOkShotFails "https://example.com").1 = true ∧
    (sampleController.navigate navOkShotFails "https://example.com").2.screenshots
      = sampleController.screenshots :=
  ⟨rfl, rfl, rfl⟩

/-- C6 amended: `navigate` returns false when the controller is
uninitialized or the navigation raises; and provided the screenshot
capture itself succeeds, a `navigate` call on an initialized
controller that returns true appends exactly one new entry, named
`"page_load"`, to `screenshots`. -/
theorem navigate_success_appends_page_load
    (c : PlaywrightController) (env : NavigateEnv) (url : String) :
    (c.is_initialized = false → c.navigate env url = (false, c)) ∧
    (∀ err, env.goto = Except.error err → (c.navigate env url).1 = false) ∧
    (∀ data, c.is_initialized = true →
      env.shot.screenshot_bytes = Except.ok data →
      (c.navigate env url).1 = true →
      (c.navigate env url).2.screenshots = c.screenshots ++
        [{ name := "page_load", type := "viewport", selector := none,
           data := data }]) := by
  refine ⟨?_, ?_, ?_⟩
  · intro h
    simp [PlaywrightController.navigate, h]
  · intro err herr
    cases hI : c.is_initialized <;>
      simp [PlaywrightController.navigate, hI, herr]
  · intro data hI hshot htrue
    cases hgoto : env.goto with
    | error e => simp [PlaywrightController.navigate, hI, hgoto] at htrue
    | ok resp =>
      simp [PlaywrightController.navigate, hI, hgoto,
            PlaywrightController.take_screenshot, hshot]

/-- C6 amended witness: a successful navigation with a successful
capture appends the single `page_load` entry. -/
theorem navigate_success_appends_page_load_witness :
    (sampleController.navigate navOkShotOk "https://example.com").2.screenshots =
      sampleController.screenshots ++
        [{ name := "page_load", type := "viewport", selector := none,
           data := "DATA" }] :=
  (navigate_success_appends_page_load sampleController navOkShotOk
    "https://example.com").2.2 "DATA" rfl rfl rfl

/-- C10 counterexample: `page.goto` completes without raising but
returns no response, and the screenshot capture raises; `navigate`
returns false and no `page_load` entry is appended, contradicting
the claim's "a page_load entry has still been appended" as
universally stated. -/
theorem navigate_not_ok_without_screenshot_entry :
    sampleController.is_initialized = true ∧
    (sampleController.navigate navNoneShotFails "http://example.com").1 = false ∧
    (sampleController.navigate navNoneShotFails "http://example.com").2.screenshots
      = sampleController.screenshots :=
  ⟨rfl, rfl, rfl⟩

/-- C10 amended: when the page load completes without raising but
yields a non-ok (or absent) response, `navigate` returns false, and
provided the screenshot capture succeeds a `page_load` entry has
still been appended — so a new screenshots entry does not imply that
`navigate` returned true. -/
theorem navigate_not_ok_still_screenshots
    (c : PlaywrightController) (env : NavigateEnv) (url : String)
    (data : String) (r : Option NavResponse)
    (hI : c.is_initialized = true)
    (hshot : env.shot.screenshot_bytes = Except.ok data)
    (hgoto : env.goto = Except.ok r)
    (hr : r = none ∨ ∃ resp, r = some resp ∧ resp.ok = false) :
    (c.navigate env url).1 = false ∧
    (c.navigate env url).2.screenshots = c.screenshots ++
      [{ name := "page_load", type := "viewport", selector := none,
         data := data }] := by
  rcases hr with hr | ⟨resp, hr, hok⟩
  · subst hr
    simp [PlaywrightController.navigate, hI, hgoto,
          PlaywrightController.take_screenshot, hshot]
  · subst hr
    simp [PlaywrightController.navigate, hI, hgoto,
          PlaywrightController.take_screenshot, hshot, hok]

/-- C10 amended witness: a non-ok response with a successful capture
yields `False` together with the appended `page_load` entry. -/
theorem navigate_not_ok_still_screenshots_witness :
    (sampleController.navigate navNotOkShotOk "http://example.com").1 = false ∧
    (sampleController.navigate navNotOkShotOk "http://example.com").2.screenshots =
      sampleController.screenshots ++
        [{ name := "page_load", type := "viewport", selector := none,
           data := "DATA" }] :=
  navigate_not_ok_still_screenshots sampleController navNotOkShotOk
    "http://example.com" "DATA" (some { ok := false }) rfl rfl rfl
    (Or.inr ⟨{ ok := false }, rfl, rfl⟩)

/-- Appending to an existing key of the findings dict never changes
its key list; appending to a missing key raises instead of adding
the key. -/
theorem dictAppend_keys (d : Findings) (k : String) (v : Finding) :
    ∀ d1, dictAppend d k v = some d1 → dictKeys d1 = dictKeys d := by
  induction d with
  | nil => intro d1 h; simp [dictAppend] at h
  | cons hd tl ih =>
    intro d1 h
    obtain ⟨k1, vs⟩ := hd
    by_cases hk : k1 = k
    · simp [dictAppend, hk] at h
      subst h
      simp [dictKeys]
      exact hk.symm
    · simp [dictAppend, hk] at h
      obtain ⟨r, hr, hd1⟩ := h
      subst hd1
      simp [dictKeys] at *
      exact ih r hr

/-- `take_screenshot` never touches the findings dict. -/
theorem take_screenshot_findings (c : PlaywrightController)
    (env : ScreenshotEnv) (name : String) (selector : Option String)
    (full_page : Bool) :
    ((c.take_screenshot env name selector full_page).2).findings = c.findings := by
  unfold PlaywrightController.take_screenshot
  repeat' split <;> try rfl

/-- The accessibility findings loop preserves the findings keys. -/
theorem addAccessibilityFindings_keys (issues : List AccessibilityIssue) :
    ∀ c : PlaywrightController,
    dictKeys ((PlaywrightController.addAccessibilityFindings c issues).1).findings =
      dictKeys c.findings := by
  induction issues with
  | nil => intro c; simp [PlaywrightController.addAccessibilityFindings]
  | cons issue rest ih =>
    intro c
    cases h : dictAppend c.findings issue.severity
        { type := "accessibility", description := issue.description,
          details := issue.toJ } with
    | none => simp [PlaywrightController.addAccessibilityFindings, h]
    | some f =>
      simp only [PlaywrightController.addAccessibilityFindings, h]
      rw [ih]
      exact dictAppend_keys c.findings issue.severity _ f h

/-- The responsive issue loop preserves the findings keys. -/
theorem addResponsiveIssues_keys (issues : List J) :
    ∀ (c : PlaywrightController) (bpName : String) (acc : List J),
    dictKeys (((PlaywrightController.addResponsiveIssues c bpName acc issues).1.1).findings) =
      dictKeys c.findings := by
  induction issues with
  | nil => intro c bpName acc; simp [PlaywrightController.addResponsiveIssues]
  | cons issue rest ih =>
    intro c bpName acc
    simp only [PlaywrightController.addResponsiveIssues]
    cases h : dictAppend c.findings "medium"
        { type := "responsive",
          description := "Responsive issue at " ++ bpName ++ " breakpoint: " ++
            pyStr (jGetD (match issue with
              | .obj fs => J.obj (jObjSet fs "breakpoint" (J.str bpName))
              | other => other) "description" (J.str "Layout issue")),
          details := (match issue with
            | .obj fs => J.obj (jObjSet fs "breakpoint" (J.str bpName))
            | other => other) } with
    | none => simp [h]
    | some f =>
      simp only [h]
      rw [ih]
      exact dictAppend_keys c.findings "medium" _ f h

/-- The security form loop preserves the findings keys. -/
theorem addFormFindings_keys (forms : List FormInfo) :
    ∀ (c : PlaywrightController) (acc : List J),
    dictKeys (((PlaywrightController.addFormFindings c acc forms).1.1).findings) =
      dictKeys c.findings := by
  induction forms with
  | nil => intro c acc; simp [PlaywrightController.addFormFindings]
  | cons form rest ih =>
    intro c acc
    simp only [PlaywrightController.addFormFindings]
    by_cases hp : form.hasPassword && form.action.startsWith "http:"
    · simp only [hp, if_true]
      cases h : dictAppend c.findings "high"
          { type := "security",
            description := "Password form submitting over HTTP",
            details := J.obj [("action", J.str form.action),
                              ("method", J.str form.method),
                              ("hasPassword", J.bool form.hasPassword)] } with
      | none => simp [h]
      | some f =>
        simp only [h]
        rw [ih]
        exact dictAppend_keys c.findings "high" _ f h
    · simp only [hp, if_false]
      exact ih c acc

/-- `check_accessibility` preserves the findings keys. -/
theorem check_accessibility_keys (c : PlaywrightController)
    (env : AccessibilityEnv) :
    dictKeys ((c.check_accessibility env).2).findings = dictKeys c.findings := by
  unfold PlaywrightController.check_accessibility
  cases hI : c.is_initialized
  · simp
  · simp only [Bool.not_true, Bool.false_eq_true, if_false]
    cases env.snapshot with
    | error e => rfl
    | ok snap =>
      cases PlaywrightController.run_accessibility_checks env with
      | error e => rfl
      | ok issues =>
        have h := addAccessibilityFindings_keys issues c
        cases hrec : PlaywrightController.addAccessibilityFindings c issues with
        | mk c1 oerr =>
          cases oerr <;> simp_all

/-- The responsive breakpoint loop preserves the findings keys. -/
theorem responsiveLoop_keys (bps : List (Breakpoint × BreakpointEnv)) :
    ∀ (c : PlaywrightController) (accB accI : List J),
    dictKeys ((PlaywrightController.responsiveLoop c bps accB accI).2).findings =
      dictKeys c.findings := by
  induction bps with
  | nil => intro c accB accI; simp [PlaywrightController.responsiveLoop]
  | cons pair rest ih =>
    intro c accB accI
    obtain ⟨bp, env⟩ := pair
    simp only [PlaywrightController.responsiveLoop]
    cases env.set_viewport with
    | error e => rfl
    | ok u =>
      cases env.reload with
      | error e => rfl
      | ok u2 =>
        have hshot := take_screenshot_findings c env.shot
          ("breakpoint_" ++ bp.name.getD "Custom") none false
        cases hsc : c.take_screenshot env.shot
            ("breakpoint_" ++ bp.name.getD "Custom") none false with
        | mk shotData c1 =>
          rw [hsc] at hshot
          simp only [] at hshot
          cases env.layout_issues with
          | error e => simp [hshot]
          | ok issues =>
            have hadd := addResponsiveIssues_keys issues c1 (bp.name.getD "Custom") []
            cases hrec : PlaywrightController.addResponsiveIssues c1
                (bp.name.getD "Custom") [] issues with
            | mk p oerr =>
              obtain ⟨c2, tagged⟩ := p
              rw [hrec] at hadd
              simp only [hrec]
              cases oerr with
              | none =>
                simp only []
                rw [ih c2]
                simp only [] at hadd
                rw [hadd, hshot]
              | some e =>
                simp only [] at hadd ⊢
                rw [hadd, hshot]

/-- `check_responsive_design` preserves the findings keys. -/
theorem check_responsive_design_keys (c : PlaywrightController)
    (bps : List (Breakpoint × BreakpointEnv)) :
    dictKeys ((c.check_responsive_design bps).2).findings = dictKeys c.findings := by
  unfold PlaywrightController.check_responsive_design
  cases hI : c.is_initialized
  · simp
  · simp only [Bool.not_true, Bool.false_eq_true, if_false]
    have h := responsiveLoop_keys bps c [] []
    cases hrec : PlaywrightController.responsiveLoop c bps [] [] with
    | mk res c1 =>
      rw [hrec] at h
      cases res <;> simp_all

/-- The HTTPS stage preserves the findings keys. -/
theorem secHttpsStage_keys (c : PlaywrightController) (url : String) :
    dictKeys (((PlaywrightController.secHttpsStage c url).1.1).findings) =
      dictKeys c.findings := by
  unfold PlaywrightController.secHttpsStage
  by_cases hu : url.startsWith "https://"
  · simp [hu]
  · simp only [hu, Bool.not_false, if_true]
    cases h : dictAppend c.findings "high"
        { type := "security", description := "Site is not using HTTPS",
          details := J.obj [("url", J.str url)] } with
    | none => simp [hu, h]
    | some f =>
      simp [hu, h]
      exact dictAppend_keys c.findings "high" _ f h

/-- The CSP stage preserves the findings keys. -/
theorem secCspStage_keys (c : PlaywrightController) (issues : List J)
    (has_csp : Bool) (hk : J) :
    dictKeys (((PlaywrightController.secCspStage c issues has_csp hk).1.1).findings) =
      dictKeys c.findings := by
  unfold PlaywrightController.secCspStage
  cases has_csp
  · simp only [Bool.not_false, if_true]
    cases h : dictAppend c.findings "medium"
        { type := "security",
          description := "No Content Security Policy header",
          details := J.obj [("headers", hk)] } with
    | none => simp [h]
    | some f =>
      simp [h]
      exact dictAppend_keys c.findings "medium" _ f h
  · simp

/-- The X-Frame-Options stage preserves the findings keys. -/
theorem secXfoStage_keys (c : PlaywrightController) (issues : List J)
    (has_xfo : Bool) (hk : J) :
    dictKeys (((PlaywrightController.secXfoStage c issues has_xfo hk).1.1).findings) =
      dictKeys c.findings := by
  unfold PlaywrightController.secXfoStage
  cases has_xfo
  · simp only [Bool.not_false, if_true]
    cases h : dictAppend c.findings "low"
        { type := "security",
          description := "No X-Frame-Options header",
          details := J.obj [("headers", hk)] } with
    | none => simp [h]
    | some f =>
      simp [h]
      exact dictAppend_keys c.findings "low" _ f h
  · simp

/-- `run_security_checks` preserves the findings keys. -/
theorem run_security_checks_keys (c : PlaywrightController) (env : SecurityEnv) :
    dictKeys ((c.run_security_checks env).2).findings = dictKeys c.findings := by
  unfold PlaywrightController.run_security_checks
  cases hI : c.is_initialized
  · rfl
  · rw [if_neg (show ¬((!true) = true) by decide)]
    have h1 := secHttpsStage_keys c env.current_url
    cases hs1 : PlaywrightController.secHttpsStage c env.current_url with
    | mk p1 oerr1 =>
      obtain ⟨c1, issues1⟩ := p1
      rw [hs1] at h1
      simp only [] at h1
      cases oerr1 with
      | some e => simpa using h1
      | none =>
        cases env.goto with
        | error e => simpa using h1
        | ok oheaders =>
          cases oheaders with
          | none => simpa using h1
          | some headers =>
            have h2 := secCspStage_keys c1 issues1
              ((headers.lookup "content-security-policy").isSome)
              (J.arr (headers.map (fun h => J.str h.1)))
            cases hs2 : PlaywrightController.secCspStage c1 issues1
                ((headers.lookup "content-security-policy").isSome)
                (J.arr (headers.map (fun h => J.str h.1))) with
            | mk p2 oerr2 =>
              obtain ⟨c2, issues2⟩ := p2
              rw [hs2] at h2
              simp only [] at h2
              cases oerr2 with
              | some e => simp only [hs2]; rw [h2, h1]
              | none =>
                have h3 := secXfoStage_keys c2 issues2
                  ((headers.lookup "x-frame-options").isSome)
                  (J.arr (headers.map (fun h => J.str h.1)))
                cases hs3 : PlaywrightController.secXfoStage c2 issues2
                    ((headers.lookup "x-frame-options").isSome)
                    (J.arr (headers.map (fun h => J.str h.1))) with
                | mk p3 oerr3 =>
                  obtain ⟨c3, issues3⟩ := p3
                  rw [hs3] at h3
                  simp only [] at h3
                  cases oerr3 with
                  | some e => simp only [hs2, hs3]; rw [h3, h2, h1]
                  | none =>
                    cases env.forms with
                    | error e => simp only [hs2, hs3]; rw [h3, h2, h1]
                    | ok forms =>
                      have h4 := addFormFindings_keys forms c3 issues3
                      cases hs4 : PlaywrightController.addFormFindings c3 issues3 forms with
                      | mk p4 oerr4 =>
                        obtain ⟨c4, issues4⟩ := p4
                        rw [hs4] at h4
                        simp only [] at h4
                        cases oerr4 with
                        | some e => simp only [hs2, hs3, hs4]; rw [h4, h3, h2, h1]
                        | none => simp only [hs2, hs3, hs4]; rw [h4, h3, h2, h1]

/-- Each check-suite call preserves the findings keys. -/
theorem applyOp_keys (c : PlaywrightController) (op : ControllerOp) :
    dictKeys (applyOp c op).findings = dictKeys c.findings := by
  cases op with
  | accessibility env => exact check_accessibility_keys c env
  | responsive bps => exact check_responsive_design_keys c bps
  | security env => exact run_security_checks_keys c env

/-- A whole sequence of check-suite calls preserves the findings
keys. -/
theorem foldl_applyOp_keys (ops : List ControllerOp) :
    ∀ c : PlaywrightController,
    dictKeys (ops.foldl applyOp c).findings = dictKeys c.findings := by
  induction ops with
  | nil => intro c; rfl
  | cons op rest ih =>
    intro c
    rw [List.foldl_cons, ih (applyOp c op), applyOp_keys]

/-- C5: starting from a freshly constructed controller (whether or not
its initialization succeeded), after any sequence of
`check_accessibility`, `check_responsive_design` and
`run_security_checks` calls the findings dict has exactly the four
severity keys `high`, `medium`, `low`, `info`, in that order; no
operation ever adds or removes a key. -/
theorem findings_always_four_severity_keys
    (ops : List ControllerOp) (launch_ok : Bool) :
    dictKeys ((ops.foldl applyOp
        (( PlaywrightController.initialize PlaywrightController.new launch_ok)).2).findings) =
      ["high", "medium", "low", "info"] := by
  rw [foldl_applyOp_keys]
  cases launch_ok <;> rfl

/-- The executor's step loop refines the spec-side loop policies: the
accumulated results are followed by the stop-at-first-failure prefix
(under `stop_on_error`) or by all step outcomes in order. -/
theorem execLoop_results (env : ExecEnv) (stop : Bool) (total : Nat) :
    ∀ (steps : List StepDict) (i : Nat) (t : ProgressTracker)
      (acc : List StepResultR),
    (PlaybookExecutor.execLoop env stop total i steps t acc).2 =
      acc ++ (if stop then specResultsStop env i steps
              else specResultsAll env i steps) := by
  intro steps
  induction steps with
  | nil =>
    intro i t acc
    cases stop <;>
      simp [PlaybookExecutor.execLoop, specResultsStop, specResultsAll]
  | cons step rest ih =>
    intro i t acc
    simp only [PlaybookExecutor.execLoop]
    cases hcall : PlaybookExecutor.execute_step (env.run i) step.action
        (step.parameters.getD []) with
    | ok r =>
      simp only [hcall]
      rw [ih]
      cases stop <;>
        simp [specResultsStop, specResultsAll, PlaybookExecutor.stepEntry, hcall]
    | error e =>
      simp only [hcall]
      cases stop with
      | false =>
        simp only [Bool.false_eq_true, if_false]
        rw [ih]
        simp [specResultsStop, specResultsAll, PlaybookExecutor.stepEntry, hcall]
      | true =>
        simp [specResultsStop, PlaybookExecutor.stepEntry, hcall]

/-- C1: `PlaybookExecutor.execute` follows the `stop_on_error`
policy: with the flag true — or absent, defaulting to true — the
result list is exactly the outcomes of the steps up to and including
the first failing one (a failing handler or unknown action), so no
later step appears; with the flag false every step is attempted and
its outcome appended in step order. -/
theorem playbook_stop_on_error_policy (env : ExecEnv) (pb : PlaybookDict) :
    (PlaybookExecutor.execute env pb).2.results =
      (if pb.stop_on_error.getD true then specResultsStop env 0 pb.steps
       else specResultsAll env 0 pb.steps) := by
  simp only [PlaybookExecutor.execute]
  rw [execLoop_results]
  simp

/-- The stop-at-first-failure result list is never longer than the
step list. -/
theorem specResultsStop_length (env : ExecEnv) :
    ∀ (steps : List StepDict) (i : Nat),
    (specResultsStop env i steps).length ≤ steps.length := by
  intro steps
  induction steps with
  | nil => intro i; simp [specResultsStop]
  | cons step rest ih =>
    intro i
    simp only [specResultsStop]
    by_cases h : (PlaybookExecutor.stepEntry env i step).status = "error"
    · simp [h]
    · simp [h, List.length_cons]
      exact ih (i + 1)

/-- The attempt-everything result list has one entry per step. -/
theorem specResultsAll_length (env : ExecEnv) :
    ∀ (steps : List StepDict) (i : Nat),
    (specResultsAll env i steps).length = steps.length := by
  intro steps
  induction steps with
  | nil => intro i; rfl
  | cons step rest ih =>
    intro i
    simp only [specResultsAll, List.length_cons, ih]

/-- Every entry a step produces carries status `success` or
`error`. -/
theorem stepEntry_status (env : ExecEnv) (i : Nat) (step : StepDict) :
    (PlaybookExecutor.stepEntry env i step).status = "success" ∨
    (PlaybookExecutor.stepEntry env i step).status = "error" := by
  unfold PlaybookExecutor.stepEntry
  cases PlaybookExecutor.execute_step (env.run i) step.action
      (step.parameters.getD []) with
  | ok r => left; rfl
  | error e => right; rfl

/-- All statuses of the stop-policy result list are well-formed. -/
theorem specResultsStop_statuses (env : ExecEnv) :
    ∀ (steps : List StepDict) (i : Nat),
    ((specResultsStop env i steps).all
      (fun s => s.status == "success" || s.status == "error")) = true := by
  intro steps
  induction steps with
  | nil => intro i; rfl
  | cons step rest ih =>
    intro i
    simp only [specResultsStop]
    by_cases h : (PlaybookExecutor.stepEntry env i step).status = "error"
    · simp [h]
    · rcases stepEntry_status env i step with hs | hs
      · simp [h, List.all_cons, hs, ih]
      · exact absurd hs h

/-- All statuses of the attempt-everything result list are
well-formed. -/
theorem specResultsAll_statuses (env : ExecEnv) :
    ∀ (steps : List StepDict) (i : Nat),
    ((specResultsAll env i steps).all
      (fun s => s.status == "success" || s.status == "error")) = true := by
  intro steps
  induction steps with
  | nil => intro i; rfl
  | cons step rest ih =>
    intro i
    rcases stepEntry_status env i step with hs | hs <;>
      simp [specResultsAll, List.all_cons, hs, ih]

/-- C2: `PlaybookExecutor.execute` never raises for step failures:
whatever the playbook (empty step list and all-failing handlers
included) it returns a well-formed aggregate whose status is
`"completed"`, whose name and id echo the playbook dict, whose result
entries all carry status `success` or `error` with at most one entry
per step, and whose summary is the executing tracker's
`get_summary()`. -/
theorem playbook_execute_total_and_well_formed (env : ExecEnv) (pb : PlaybookDict) :
    (PlaybookExecutor.execute env pb).2.status = "completed" ∧
    (PlaybookExecutor.execute env pb).2.name = pb.name.getD "Unnamed Playbook" ∧
    (PlaybookExecutor.execute env pb).2.playbook_id = pb.id ∧
    (PlaybookExecutor.execute env pb).2.summary =
      ((PlaybookExecutor.execute env pb).1).get_summary env.t1 ∧
    (PlaybookExecutor.execute env pb).2.results.length ≤ pb.steps.length ∧
    ((PlaybookExecutor.execute env pb).2.results.all
      (fun s => s.status == "success" || s.status == "error")) = true := by
  refine ⟨rfl, rfl, rfl, rfl, ?_, ?_⟩
  · have h := execLoop_results env (pb.stop_on_error.getD true) pb.steps.length
      pb.steps 0 ((ProgressTracker.new env.t0).start_phase env.now
        ("Executing: " ++ pb.name.getD "Unnamed Playbook") (some pb.steps.length)) []
    simp only [PlaybookExecutor.execute]
    rw [h]
    by_cases hstop : pb.stop_on_error.getD true
    · simp [hstop, specResultsStop_length]
    · simp [hstop, specResultsAll_length]
  · have h := execLoop_results env (pb.stop_on_error.getD true) pb.steps.length
      pb.steps 0 ((ProgressTracker.new env.t0).start_phase env.now
        ("Executing: " ++ pb.name.getD "Unnamed Playbook") (some pb.steps.length)) []
    simp only [PlaybookExecutor.execute]
    rw [h]
    by_cases hstop : pb.stop_on_error.getD true
    · simp [hstop, specResultsStop_statuses]
    · simp [hstop, specResultsAll_statuses]

/-- C3: a step whose action is not a key of the executor's dispatch
table fails exactly like a handler exception: `_execute_step` raises
`ValueError("Unknown action: ...")`, the loop records an error entry
with that text after the same tracker updates, and the same
`stop_on_error` decision applies — no up-front validation aborts the
playbook. -/
theorem unknown_action_is_ordinary_step_failure (env : ExecEnv) (stop : Bool)
    (total i : Nat) (s : StepDict) (rest : List StepDict)
    (t : ProgressTracker) (acc : List StepResultR)
    (h : PlaybookExecutor.actionLookup s.action (s.parameters.getD []) = none) :
    PlaybookExecutor.execute_step (env.run i) s.action (s.parameters.getD []) =
      Except.error ("Unknown action: " ++ pyOptStr s.action) ∧
    PlaybookExecutor.execLoop env stop total i (s :: rest) t acc =
      (let errMsg := "Unknown action: " ++ pyOptStr s.action
       let tErr := (t.info env.now
          ("Executing step " ++ toString (i + 1) ++ "/" ++ toString total ++ ": " ++
            pyOptStr s.action)
          (some ((i : ℚ) / (total : ℚ) * 100)) []).error env.now
          ("Step " ++ toString (i + 1) ++ " failed: " ++ errMsg) []
       let entry : StepResultR :=
         { step_id := s.id.getD ("step-" ++ toString i), action := s.action,
           status := "error", outcome := Except.error errMsg }
       if stop then (tErr, acc ++ [entry])
       else PlaybookExecutor.execLoop env stop total (i + 1) rest tErr (acc ++ [entry])) := by
  constructor
  · simp [PlaybookExecutor.execute_step, h]
  · simp [PlaybookExecutor.execLoop, PlaybookExecutor.execute_step, h]

/-- C3 witness: a concrete one-step playbook loop over an unknown
action records the error entry and stops. -/
theorem unknown_action_is_ordinary_step_failure_witness :
    PlaybookExecutor.execute_step (sampleExecEnv.run 0) (some "frobnicate") [] =
      Except.error "Unknown action: frobnicate" :=
  (unknown_action_is_ordinary_step_failure sampleExecEnv true 1 0
    { id := some "s1", action := some "frobnicate", parameters := some [] }
    [] (ProgressTracker.new 0) [] rfl).1

/-- C4 counterexample: `detect_forms` is one of the spec's nine
action names, yet the dispatch of `PlaybookExecutor._execute_step`
fails on it (its `action_map` has only seven keys), so the claim that
the playbook executor's table supports all nine is false. -/
theorem playbookExecutor_missing_detect_forms :
    "detect_forms" ∈ specStepVocabulary ∧
    PlaybookExecutor.execute_step (fun _ => Except.ok J.null)
      (some "detect_forms") [] =
        Except.error "Unknown action: detect_forms" := by
  refine ⟨?_, rfl⟩
  simp [specStepVocabulary]

/-- C4 amended: the nine-name vocabulary is exactly the key set of
`http_server.execute_step`'s dispatch table, and each of the nine
dispatches there to its handler; `PlaybookExecutor._execute_step`'s
table supports exactly the seven of them other than `detect_forms`
and `generate_report`. -/
theorem dispatch_tables_support (p : Params) :
    (∀ a : String, (httpActionLookup a p).isSome ↔ a ∈ specStepVocabulary) ∧
    (∀ a : String,
      (PlaybookExecutor.actionLookup (some a) p).isSome ↔
        a ∈ PlaybookExecutor.actions) ∧
    specStepVocabulary =
      PlaybookExecutor.actions ++ ["detect_forms", "generate_report"] ∧
    (∀ (a : String) (run : HttpCall → Except String J),
      a ∈ specStepVocabulary →
      ∃ call, httpActionLookup a p = some call ∧
        httpExecuteStep run a p = run call) := by
  refine ⟨?_, ?_, rfl, ?_⟩
  · intro a
    unfold httpActionLookup
    repeat' split <;> simp_all [specStepVocabulary]
  · intro a
    unfold PlaybookExecutor.actionLookup
    repeat' split <;> simp_all [PlaybookExecutor.actions]
  · intro a run ha
    fin_cases ha <;> exact ⟨_, rfl, rfl⟩

/-- C4 amended witness: the `detect_forms` action dispatches in the
HTTP server's table. -/
theorem dispatch_tables_support_witness :
    ∃ call, httpActionLookup "detect_forms" [] = some call ∧
      httpExecuteStep (fun _ => Except.ok J.null) "detect_forms" [] =
        (fun _ : HttpCall => Except.ok J.null) call :=
  (dispatch_tables_support []).2.2.2 "detect_forms"
    (fun _ => Except.ok J.null) (by simp [specStepVocabulary])

end Tinaa
